import Mathlib

/-!
A shallow embedding of the DualPol retrieval orchestration engine
(`dualpol.py`, class `DualPolRetrieval`), together with theorems about its
masking, sounding-normalization, quality-control and dependency-resolution
behaviour.

Modelling conventions, chosen once and used throughout:

* External algorithm libraries (csu_radartools filters and retrievals, the
  pyart geometry conversion, SkewT file parsing, `np.interp`) are out of
  scope of the engine and are modelled as opaque function parameters,
  gathered in the `ExtLib` structure.  The engine's own control flow, field
  bookkeeping and masked-array plumbing are translated directly from the
  source.
* Numeric gate data is modelled by `Int`; none of the properties studied
  here depend on floating-point rounding.  Two-dimensional (ray × gate)
  arrays are modelled as flat lists of gates.
* A numpy array is modelled by `NDArr`: a data list plus an optional mask
  (`mask = none` models a plain `ndarray` carrying no `mask` member, so the
  source's `hasattr(var, 'mask')` test becomes `mask.isSome`; a masked
  array whose mask is `nomask` is modelled with an all-`false` mask list).
* Python exceptions arising from the engine's own code (`KeyError` from
  dict lookups, `AttributeError` from missing members, `IndexError`)
  are modelled with `Except PyErr`; `warnings.warn` and unconditional
  `print` notices are modelled as returned lists of strings.  Prints that
  the source guards behind the `verbose` flag are debug output and are not
  tracked.
* The Py-ART radar container is external; the engine relies only on its
  field directory (`radar.fields`, a dict from name to field dict, where
  `add_field(..., replace_existing=True)` inserts or replaces) and on its
  scan geometry arrays, which is what `Radar` models.
-/

/-- A numpy array as held in a field dict: gate data plus an optional mask.
`mask = none` models a plain `ndarray` with no `mask` member. -/
structure NDArr where
  data : List Int
  mask : Option (List Bool)
deriving DecidableEq

/-- `np.ma.filled`: masked entries replaced by the fill value. -/
def NDArr.filled (a : NDArr) (fill : Int) : List Int :=
  match a.mask with
  | none => a.data
  | some m => (a.data.zip m).map (fun p => if p.2 then fill else p.1)

/-- A Py-ART field dict: `data`, metadata, and an optional `_FillValue`
entry (`none` models a field dict with no `_FillValue` key, whose lookup
raises `KeyError`). -/
structure RField where
  data : NDArr
  units : String
  long_name : String
  standard_name : String
  fillValue : Option Int
deriving DecidableEq

/-- The slice of the Py-ART radar object the engine touches: the field
directory and the scan geometry arrays used by the KDP stage. -/
structure Radar where
  fields : List (String × RField)
  rng : List Int
  azimuth : List Int
deriving DecidableEq

/-- First-match lookup in a field directory (dict semantics; keys are
unique in practice). -/
def findField (fs : List (String × RField)) (name : String) : Option RField :=
  match fs with
  | [] => none
  | p :: tl => if p.1 = name then some p.2 else findField tl name

/-- `radar.fields[name]`, as an optional lookup. -/
def lookupField (r : Radar) (name : String) : Option RField :=
  findField r.fields name

/-- Key membership in a field directory. -/
def hasFieldKey (fs : List (String × RField)) (name : String) : Bool :=
  match fs with
  | [] => false
  | p :: tl => if p.1 = name then true else hasFieldKey tl name

/-- `name in radar.fields`. -/
def hasField (r : Radar) (name : String) : Bool :=
  hasFieldKey r.fields name

/-- Insert-or-replace on the field directory, the contract of
`radar.add_field(name, dict, replace_existing=True)`. -/
def insertField (fs : List (String × RField)) (name : String) (f : RField) :
    List (String × RField) :=
  if hasFieldKey fs name then
    fs.map (fun p => if p.1 = name then (name, f) else p)
  else
    fs ++ [(name, f)]

/-- `radar.add_field(name, field_dict, replace_existing=True)`. -/
def Radar.add_field (r : Radar) (name : String) (f : RField) : Radar :=
  { r with fields := insertField r.fields name f }

/-- Python exceptions that the engine's own statements can raise. -/
inductive PyErr where
  | keyError (key : String)
  | attrError (attr : String)
  | indexError
  | nameError (name : String)
deriving DecidableEq

/-- A sounding as the engine stores it: `snd_z`, `snd_T`, and the mask of
the `snd_T` masked array (`Tmask = none` models `snd_T` being a plain
`ndarray` with no `mask` member, as it is after normalization). -/
structure Sounding where
  z : List Int
  T : List Int
  Tmask : Option (List Bool)
deriving DecidableEq

/-- The mutable state of a `DualPolRetrieval` instance.  The source sets
these attributes progressively during `__init__`; attributes that may not
exist yet at a given program point (`snd_T`/`snd_z`, `radar_z`, `radar_T`,
`name_fdp`) are `Option`-valued, with `none` for "not set".  Configuration
attributes are carried from the start with the values `__init__` assigns
to them; this is observationally equivalent because the source never reads
one before assigning it. -/
structure Eng where
  radar : Radar
  verbose : Bool
  name_dz : String
  name_dr : String
  name_kd : Option String
  name_rh : String
  name_ld : Option String
  name_dp : Option String
  name_fdp : Option String
  kdp_method : String
  bad : Int
  thresh_sdp : Int
  gs : Int
  name_sdp : String
  kdp_window : Int
  T_flag : Bool
  T_factor : Int
  winter_flag : Bool
  name_fhc : String
  fhc_weights : List (String × Int)
  fhc_method : String
  band : String
  snd : Option Sounding
  radar_z : Option (List Int)
  radar_T : Option (List Int)
  dz_range : List (Int × Int)
  dr_thresh : List Int
  speckle : Nat
deriving DecidableEq

/-- `self.radar.add_field(field_name, field_dict, replace_existing=True)`:
the engine state with one field inserted/replaced in its volume. -/
def commitField (e : Eng) (field_name : String) (nf : RField) : Eng :=
  { e with radar := e.radar.add_field field_name nf }

/-- `DualPolRetrieval.extract_unmasked_data` with the default `bad=None`
(every call site uses the default, which resolves to `self.bad`). -/
def extract_unmasked_data (e : Eng) (field : String) : Except PyErr (List Int) :=
  match lookupField e.radar field with
  | none => .error (.keyError field)
  | some f =>
    match f.data.mask with
    | some _ => .ok (f.data.filled e.bad)
    | none => .ok f.data.data

/-- `self.radar.fields[name]['data']`. -/
def getFieldData (e : Eng) (name : String) : Except PyErr NDArr :=
  match lookupField e.radar name with
  | some f => .ok f.data
  | none => .error (.keyError name)

/-- `self.radar.fields[name]['data']` where `name` is an optional
attribute such as `self.name_kd`; indexing the field dict with Python
`None` raises `KeyError`. -/
def getFieldDataOpt (e : Eng) (name : Option String) : Except PyErr NDArr :=
  match name with
  | some n => getFieldData e n
  | none => .error (.keyError "None")

/-- `DualPolRetrieval.add_field_to_radar_object`: wrap the raw result as a
masked array; if the base reflectivity field's data carries a mask, copy
that mask onto it and adopt the base field's `_FillValue`, else keep the
configured bad-data sentinel as fill value; insert/replace the named field
in the volume. -/
def add_field_to_radar_object (e : Eng) (field : NDArr) (field_name : String)
    (units long_name standard_name : String) : Except PyErr Eng :=
  match lookupField e.radar e.name_dz with
  | none => .error (.keyError e.name_dz)
  | some dzf =>
    match dzf.data.mask with
    | some m =>
      match dzf.fillValue with
      | none => .error (.keyError "_FillValue")
      | some fv =>
        .ok (commitField e field_name
          { data := { data := field.data, mask := some m },
            units := units, long_name := long_name,
            standard_name := standard_name, fillValue := some fv })
    | none =>
      .ok (commitField e field_name
        { data := field, units := units, long_name := long_name,
          standard_name := standard_name, fillValue := some e.bad })

/-- The external algorithm libraries the engine calls into, modelled as
opaque functions.  Signatures mirror the call sites: `csu_misc` filters,
`csu_kdp.calc_kdp_bringi`, `csu_fhc.csu_fhc_summer`, the `csu_blended_rain`
entry points, `csu_dsd.calc_dsd`, `csu_liquid_ice_mass`, `np.interp`, and
the geometry conversion underlying `get_z_from_radar`. -/
structure ExtLib where
  insect_filter : List Int → List Int → List (Int × Int) → List Int → Int →
    List Bool
  differential_phase_filter : List Int → Int → List Bool
  despeckle : List Int → Int → Nat → List Bool
  calc_kdp_bringi : List Int → List Int → List Int → Int → Int → Int →
    List Int × List Int × List Int
  csu_fhc_summer : NDArr → NDArr → NDArr → NDArr → Option NDArr → Bool →
    String → String → Option (List Int) → Int → List (String × Int) →
    List (List Int)
  csu_hidro_rain : NDArr → NDArr → NDArr → NDArr → List Int × List Int
  calc_blended_rain : NDArr → NDArr → NDArr → List Int × List Int
  calc_blended_rain_ice : NDArr → NDArr → NDArr →
    List Int × List Int × List Int × List Int
  calc_dsd : NDArr → NDArr → NDArr → String → String →
    List Int × List Int × List Int
  calc_liquid_ice_mass : NDArr → NDArr → List Int → Option (List Int) →
    List Int × List Int
  interp : List Int → List Int → List Int → List Int
  get_z_from_radar : Radar → List Int

/-- `DualPolRetrieval.do_qc`: when the phase-noise-stddev field is absent,
report a no-op notice; otherwise extract reflectivity, differential
reflectivity and phase-noise stddev as plain arrays, compute the insect
mask and the phase-noise mask, union them, apply the union to a working
copy of reflectivity, despeckle that composite, union again, and commit
the final mask onto the original reflectivity field's data via
`setattr(data, 'mask', final_mask)`.  That `setattr` only succeeds when
the reflectivity data is a masked array; on a plain `ndarray` (which
cannot gain a `mask` attribute) it raises `AttributeError`. -/
def do_qc (x : ExtLib) (e : Eng) : Except PyErr (Eng × List String) :=
  if hasField e.radar e.name_sdp = false then
    .ok (e, ["Cannot do QC, no SDP field identified"])
  else
    match extract_unmasked_data e e.name_dz with
    | .error err => .error err
    | .ok dz =>
    match extract_unmasked_data e e.name_dr with
    | .error err => .error err
    | .ok dr =>
    match extract_unmasked_data e e.name_sdp with
    | .error err => .error err
    | .ok sdp =>
      let insect_mask := x.insect_filter dz dr e.dz_range e.dr_thresh e.bad
      let sdp_mask := x.differential_phase_filter sdp e.thresh_sdp
      let new_mask := List.zipWith (fun a b => a || b) insect_mask sdp_mask
      let dz_qc := (dz.zip new_mask).map (fun p => if p.2 then e.bad else p.1)
      let mask_ds := x.despeckle dz_qc e.bad e.speckle
      let final_mask := List.zipWith (fun a b => a || b) new_mask mask_ds
      match lookupField e.radar e.name_dz with
      | none => .error (.keyError e.name_dz)
      | some dzf =>
        match dzf.data.mask with
        | some _ =>
          .ok (commitField e e.name_dz
            { dzf with data := { dzf.data with mask := some final_mask } },
            [])
        | none => .error (.attrError "mask")

/-- Python `str.upper()` (method names here are ASCII). -/
def pyUpper (s : String) : String := String.mk (s.data.map Char.toUpper)

/-- The flattened range matrix `np.meshgrid(rng, az)[0]` passed to the
external KDP estimator: the per-gate ranges `radar.range['data']/RNG_MULT`
repeated for every azimuth (`RNG_MULT = 1000`). -/
def rng2dOf (r : Radar) : List Int :=
  (r.azimuth.map (fun _ => r.rng.map (fun v => v / 1000))).flatten

/-- `DualPolRetrieval.call_csu_kdp`: extract differential phase and
reflectivity as plain arrays, build the range matrix, invoke the external
`csu_kdp.calc_kdp_bringi` with the gate spacing and phase-noise threshold,
commit the filtered differential phase under `FDP_<method>` and the
phase-noise stddev under `name_sdp`, and return the KDP array.  (The
source pre-fills kdp/fdp/sdp with the bad sentinel and immediately
overwrites all three with the external call's results, so the pre-fill is
dead and not modelled.) -/
def call_csu_kdp (x : ExtLib) (e : Eng) : Except PyErr (List Int × Eng) :=
  match extract_unmasked_data e (e.name_dp.getD "None") with
  | .error err => .error err
  | .ok dp =>
  match extract_unmasked_data e e.name_dz with
  | .error err => .error err
  | .ok dz =>
    let res := x.calc_kdp_bringi dp dz (rng2dOf e.radar) e.gs e.thresh_sdp e.bad
    let e1 := { e with name_fdp := some ("FDP_" ++ e.kdp_method) }
    match add_field_to_radar_object e1 { data := res.2.1, mask := none }
        ("FDP_" ++ e.kdp_method) "deg" "Filtered Differential Phase"
        "Filtered Differential Phase" with
    | .error err => .error err
    | .ok e2 =>
    match add_field_to_radar_object e2 { data := res.2.2, mask := none }
        e.name_sdp "deg" "Standard Deviation of Differential Phase"
        "Std Dev Differential Phase" with
    | .error err => .error err
    | .ok e3 => .ok (res.1, e3)

/-- `DualPolRetrieval.calculate_kdp`: when a differential-phase binding
exists and the field is present, compute KDP (for the `CSU` method via
`call_csu_kdp`; any other method leaves the local `kdp` unbound, a
`NameError`), set `name_kd` to `KDP_<method>` and commit the array;
otherwise warn and return `False`. -/
def calculate_kdp (x : ExtLib) (e : Eng) :
    Except PyErr (Bool × Eng × List String) :=
  let wstr := "Missing differential phase and KDP fields, failing ..."
  match e.name_dp with
  | some ndp =>
    if hasField e.radar ndp then
      if pyUpper e.kdp_method = "CSU" then
        match call_csu_kdp x e with
        | .error err => .error err
        | .ok (kdp, e1) =>
          let e2 := { e1 with name_kd := some ("KDP_" ++ e.kdp_method) }
          match add_field_to_radar_object e2 { data := kdp, mask := none }
              ("KDP_" ++ e.kdp_method) "deg km-1"
              "Specific Differential Phase" "KDP" with
          | .error err => .error err
          | .ok e3 => .ok (true, e3, [])
      else .error (.nameError "kdp")
    else .ok (false, e, [wstr])
  | none => .ok (false, e, [wstr])

/-- `DualPolRetrieval.do_name_check`: require reflectivity, differential
reflectivity and correlation coefficient (warning and `False` when one is
absent); silently drop an absent linear-depolarization binding; then
resolve KDP, calculating it via `calculate_kdp` when no usable binding
exists. -/
def do_name_check (x : ExtLib) (e : Eng) :
    Except PyErr (Bool × Eng × List String) :=
  let wstr := " field not in radar object, check variable names"
  if hasField e.radar e.name_dz then
    if hasField e.radar e.name_dr then
      if hasField e.radar e.name_rh then
        let e1 := match e.name_ld with
          | some nld =>
            if hasField e.radar nld = false then { e with name_ld := none }
            else e
          | none => e
        match e1.name_kd with
        | some nkd =>
          if hasField e1.radar nkd = false then calculate_kdp x e1
          else .ok (true, e1, [])
        | none => calculate_kdp x e1
      else .ok (false, e, [e.name_rh ++ wstr])
    else .ok (false, e, [e.name_dr ++ wstr])
  else .ok (false, e, [e.name_dz ++ wstr])

/-- A small concrete volume whose reflectivity field carries a mask, used
to witness the masking-propagation theorems. -/
def radarMasked : Radar :=
  { fields := [("DZ",
      { data := { data := [10, 20, 30], mask := some [false, true, false] },
        units := "dBZ", long_name := "Reflectivity",
        standard_name := "Reflectivity", fillValue := some (-32768) })],
    rng := [0, 150], azimuth := [0] }

/-- A small concrete volume whose reflectivity field is a plain unmasked
array. -/
def radarPlain : Radar :=
  { fields := [("DZ",
      { data := { data := [10, 20, 30], mask := none },
        units := "dBZ", long_name := "Reflectivity",
        standard_name := "Reflectivity", fillValue := none })],
    rng := [0, 150], azimuth := [0] }

/-- A base engine configuration mirroring the source's defaults, over a
given radar volume. -/
def engOver (r : Radar) : Eng :=
  { radar := r, verbose := false, name_dz := "DZ", name_dr := "DR",
    name_kd := none, name_rh := "RH", name_ld := none, name_dp := none,
    name_fdp := none, kdp_method := "CSU", bad := -32768, thresh_sdp := 12,
    gs := 150, name_sdp := "SDP_CSU", kdp_window := 3, T_flag := true,
    T_factor := 1, winter_flag := false, name_fhc := "FH",
    fhc_weights := [], fhc_method := "hybrid", band := "S", snd := none,
    radar_z := none, radar_T := none, dz_range := [], dr_thresh := [],
    speckle := 4 }

/-- The kept entries of the `check_sounding_for_montonic` loop over the
indices `i ≥ 1`: an entry is kept when its height strictly exceeds the
height at the immediately preceding ORIGINAL index
(`self.snd_z[i] > self.snd_z[i-1]`) and its temperature is not masked
(`not self.snd_T.mask[i]`).  The carried first argument is the previous
original height, updated whether or not the entry is kept.  The three
lists are walked in lockstep; sounding arrays share one length, so the
uneven-length fallthrough cases are never exercised. -/
def montonicKeep : Int → List Int → List Int → List Bool → List (Int × Int)
  | _, [], _, _ => []
  | _, _ :: _, [], _ => []
  | _, _ :: _, _ :: _, [] => []
  | zprev, z :: zs, t :: ts, m :: ms =>
    if zprev < z ∧ m = false then (z, t) :: montonicKeep z zs ts ms
    else montonicKeep z zs ts ms

/-- `DualPolRetrieval.check_sounding_for_montonic`.  A no-op when the
engine has no `snd_T` attribute; raises `AttributeError` when `snd_T` is a
plain ndarray (no `mask` member) and `IndexError` when `mask[0]` is read
on an empty mask.  Keeps the first entry unless its temperature is masked,
then runs the index loop; the kept heights and temperatures are stored
back via `np.array`, i.e. as plain arrays with no mask. -/
def check_sounding_for_montonic (e : Eng) : Except PyErr Eng :=
  match e.snd with
  | none => .ok e
  | some s =>
    match s.Tmask with
    | none => .error (.attrError "mask")
    | some mask =>
      match mask, s.z, s.T with
      | [], _, _ => .error .indexError
      | m0 :: ms, z0 :: zs, t0 :: ts =>
        let first := if m0 = false then [(z0, t0)] else []
        let kept := first ++ montonicKeep z0 zs ts ms
        .ok { e with snd := some { z := kept.map Prod.fst,
                                   T := kept.map Prod.snd, Tmask := none } }
      | _ :: _, _, _ => .error .indexError

/-- The strict-monotonicity property the spec demands of a normalized
profile: each height strictly exceeds its predecessor. -/
def strictlyIncreasing : List Int → Bool
  | [] => true
  | [_] => true
  | a :: b :: tl => if a < b then strictlyIncreasing (b :: tl) else false

/-- The C2 failing input: a sounding with heights `[0, 5, 1, 2]`
(descending-balloon data) and all temperatures valid, attached to a small
engine. -/
def engBugC2 : Eng :=
  { engOver radarMasked with
      snd := some { z := [0, 5, 1, 2], T := [10, 4, 8, 7],
                    Tmask := some [false, false, false, false] } }

/-- A small engine holding an already-normalized sounding (strictly
increasing heights, no masked temperatures), for the C7 witness. -/
def engNormC7 : Eng :=
  { engOver radarMasked with
      snd := some { z := [1, 3, 5], T := [2, 1, 0],
                    Tmask := some [false, false, false] } }

/-- A concrete instantiation of the external libraries, used by witnesses:
simple deterministic functions standing in for the real algorithms. -/
def extW : ExtLib :=
  { insect_filter := fun dz _ _ _ _ => dz.map (fun v => decide (v < 0)),
    differential_phase_filter := fun sdp t => sdp.map (fun v => decide (t < v)),
    despeckle := fun dzqc bad _ => dzqc.map (fun v => decide (v = bad)),
    calc_kdp_bringi := fun dp dz _ _ _ _ => (dp, dz, dp.map (fun v => v + 1)),
    csu_fhc_summer := fun dz _ _ _ _ _ _ _ _ _ _ => [dz.data],
    csu_hidro_rain := fun dz _ _ _ => (dz.data, dz.data),
    calc_blended_rain := fun dz _ _ => (dz.data, dz.data),
    calc_blended_rain_ice := fun dz _ _ => (dz.data, dz.data, dz.data, dz.data),
    calc_dsd := fun dz _ _ _ _ => (dz.data, dz.data, dz.data),
    calc_liquid_ice_mass := fun dz _ _ _ => (dz.data.map (fun v => v + 7),
      dz.data.map (fun v => v + 9)),
    interp := fun rz _ _ => rz,
    get_z_from_radar := fun r => r.rng }

/-- A concrete volume carrying reflectivity (masked), differential
reflectivity and phase-noise stddev fields, for the QC witnesses. -/
def radarQC : Radar :=
  { fields := [
      ("DZ",
        { data := { data := [10, 20, 30], mask := some [false, true, false] },
          units := "dBZ", long_name := "Reflectivity",
          standard_name := "Reflectivity", fillValue := some (-32768) }),
      ("DR",
        { data := { data := [1, 2, 3], mask := none },
          units := "dB", long_name := "Differential Reflectivity",
          standard_name := "Differential Reflectivity",
          fillValue := some (-32768) }),
      ("SDP_CSU",
        { data := { data := [4, 5, 20], mask := none },
          units := "deg", long_name := "Standard Deviation of Differential Phase",
          standard_name := "Std Dev Differential Phase",
          fillValue := some (-32768) })],
    rng := [0, 150], azimuth := [0] }

/-- The engine over `radarQC`, for the QC witnesses. -/
def engQC : Eng := engOver radarQC

/-- The engine state a successful `CSU` KDP calculation produces:
`name_fdp` and `name_kd` bound to the derived names, and the filtered
phase, phase-noise stddev and KDP fields committed in that order, each
carrying the base reflectivity mask `km` and fill value `fv`. -/
def kdpResultEng (e : Eng) (kdp fdp sdp : List Int) (km : List Bool)
    (fv : Int) : Eng :=
  commitField
    { (commitField
        (commitField { e with name_fdp := some "FDP_CSU" } "FDP_CSU"
          { data := { data := fdp, mask := some km }, units := "deg",
            long_name := "Filtered Differential Phase",
            standard_name := "Filtered Differential Phase",
            fillValue := some fv })
        e.name_sdp
        { data := { data := sdp, mask := some km }, units := "deg",
          long_name := "Standard Deviation of Differential Phase",
          standard_name := "Std Dev Differential Phase",
          fillValue := some fv }) with name_kd := some "KDP_CSU" }
    "KDP_CSU"
    { data := { data := kdp, mask := some km }, units := "deg km-1",
      long_name := "Specific Differential Phase", standard_name := "KDP",
      fillValue := some fv }

/-- A concrete volume for the KDP-fallback witness: reflectivity
(masked), differential reflectivity, correlation coefficient and
differential phase present; no specific-differential-phase field. -/
def radarKdp : Radar :=
  { fields := [
      ("DZ",
        { data := { data := [10, 20], mask := some [false, true] },
          units := "dBZ", long_name := "Reflectivity",
          standard_name := "Reflectivity", fillValue := some (-32768) }),
      ("DR",
        { data := { data := [1, 2], mask := none }, units := "dB",
          long_name := "Differential Reflectivity",
          standard_name := "Differential Reflectivity", fillValue := none }),
      ("RH",
        { data := { data := [9, 9], mask := none }, units := "",
          long_name := "Correlation Coefficient",
          standard_name := "Correlation Coefficient", fillValue := none }),
      ("DP",
        { data := { data := [30, 40], mask := none }, units := "deg",
          long_name := "Differential Phase",
          standard_name := "Differential Phase", fillValue := none })],
    rng := [0, 150], azimuth := [0] }

/-- The engine over `radarKdp` with a differential-phase binding, for the
KDP-fallback witness. -/
def engKdp : Eng := { engOver radarKdp with name_dp := some "DP" }

/-- The sounding argument to construction: absent, a file path (whose
parse by the external SkewT library either yields a profile or fails), or
an explicit dict of arrays (either holding both `T` and `z` entries or
not). -/
inductive SoundingInput where
  | noSounding
  | file (parsed : Option Sounding)
  | dict (entries : Option Sounding)
deriving DecidableEq

/-- `DualPolRetrieval.interpolate_sounding_to_radar`: compute the per-gate
height grid, reset `radar_T` to `None`, normalize the sounding, and — only
when temperature use is still enabled — interpolate the sounding onto the
gate heights via `np.interp`.  Reaching the interpolation without a stored
sounding would read the missing `snd_z` attribute (`AttributeError`);
`get_sounding` disables `T_flag` on every path that leaves no sounding. -/
def interpolate_sounding_to_radar (x : ExtLib) (e : Eng) : Except PyErr Eng :=
  let e1 := { e with radar_z := some (x.get_z_from_radar e.radar),
                     radar_T := none }
  match check_sounding_for_montonic e1 with
  | .error err => .error err
  | .ok e2 =>
    if e2.T_flag then
      match e2.snd, e2.radar_z with
      | some s, some rz =>
        .ok { e2 with radar_T := some (x.interp rz s.z s.T) }
      | _, _ => .error (.attrError "snd_z")
    else .ok e2

/-- `DualPolRetrieval.get_sounding`: ingest a sounding file or dict; on
`None`, a parse failure or a malformed dict, print a notice and disable
temperature use; then always interpolate to the radar gates. -/
def get_sounding (x : ExtLib) (e : Eng) (s : SoundingInput) :
    Except PyErr (Eng × List String) :=
  let ew :=
    match s with
    | .noSounding => ({ e with T_flag := false }, ["No sounding provided"])
    | .file none => ({ e with T_flag := false }, ["Sounding read fail"])
    | .file (some snd0) => ({ e with snd := some snd0 }, [])
    | .dict none =>
      ({ e with T_flag := false }, ["Sounding in wrong data format"])
    | .dict (some snd0) => ({ e with snd := some snd0 }, [])
  match interpolate_sounding_to_radar x ew.1 with
  | .error err => .error err
  | .ok e2 => .ok (e2, ew.2)

/-- The optional linear-depolarization read in `get_hid`: a bound name is
looked up (`KeyError` when the field vanished), an unbound one yields
Python `None`. -/
def getOptionalFieldData (e : Eng) (name : Option String) :
    Except PyErr (Option NDArr) :=
  match name with
  | some n =>
    match getFieldData e n with
    | .error err => .error err
    | .ok ld => .ok (some ld)
  | none => .ok none

/-- `np.argmax` over a list: the index of the first maximal element. -/
def argmaxIdx (l : List Int) : Nat :=
  (l.foldl
    (fun acc v =>
      match acc with
      | (_, i, none) => (i, i + 1, some v)
      | (best, i, some b) =>
        if b < v then (i, i + 1, some v) else (best, i + 1, some b))
    ((0 : Nat), (0 : Nat), (none : Option Int))).1

/-- `np.argmax(scores, axis=0)` for a stack of per-category score rows:
for each gate, the index of the first row attaining the maximal score. -/
def np_argmax0 (scores : List (List Int)) : List Nat :=
  match scores with
  | [] => []
  | r0 :: _ =>
    (List.range r0.length).map
      (fun g => argmaxIdx (scores.map (fun row => row.getD g 0)))

/-- `DualPolRetrieval.get_hid`: read the polarimetric fields, invoke the
external summer classifier, take per-gate argmax of the scores plus one,
and commit under `name_fhc`; the winter branch is stubbed with a
notice. -/
def get_hid (x : ExtLib) (e : Eng) : Except PyErr (Eng × List String) :=
  match getFieldData e e.name_dz with
  | .error err => .error err
  | .ok dz =>
  match getFieldData e e.name_dr with
  | .error err => .error err
  | .ok dr =>
  match getFieldDataOpt e e.name_kd with
  | .error err => .error err
  | .ok kd =>
  match getFieldData e e.name_rh with
  | .error err => .error err
  | .ok rh =>
  match getOptionalFieldData e e.name_ld with
  | .error err => .error err
  | .ok ld =>
    if e.winter_flag = false then
      let scores := x.csu_fhc_summer dz dr rh kd ld e.T_flag e.band
        e.fhc_method e.radar_T e.T_factor e.fhc_weights
      let fh := (np_argmax0 scores).map (fun n => (n : Int) + 1)
      match add_field_to_radar_object e { data := fh, mask := none }
          e.name_fhc "unitless" "Hydrometeor ID" "Hydrometeor ID" with
      | .error err => .error err
      | .ok e1 => .ok (e1, [])
    else .ok (e, ["Winter HID not enabled yet, sorry!"])

/-- `DualPolRetrieval.get_precip_rate`: read reflectivity, differential
reflectivity and KDP; for the `'hidro'` method read the classification
field (a dict lookup that raises `KeyError` when classification never
ran) and call the external HIDRO algorithm, otherwise call the blended
algorithm (committing ZDP and ice fraction when `ice_flag` is set); then
commit the rain rate and method fields.  The winter branch returns with a
notice and commits nothing. -/
def get_precip_rate (x : ExtLib) (e : Eng) (ice_flag : Bool)
    (rain_method : String) : Except PyErr (Eng × List String) :=
  match getFieldData e e.name_dz with
  | .error err => .error err
  | .ok dz =>
  match getFieldData e e.name_dr with
  | .error err => .error err
  | .ok dr =>
  match getFieldDataOpt e e.name_kd with
  | .error err => .error err
  | .ok kd =>
    if e.winter_flag = false then
      let branch : Except PyErr ((List Int × List Int) × Eng) :=
        if rain_method = "hidro" then
          match getFieldData e e.name_fhc with
          | .error err => .error err
          | .ok fhc => .ok (x.csu_hidro_rain dz dr kd fhc, e)
        else if ice_flag = false then
          .ok (x.calc_blended_rain dz dr kd, e)
        else
          let res := x.calc_blended_rain_ice dz dr kd
          match add_field_to_radar_object e
              { data := res.2.2.1, mask := none } "ZDP" "dB"
              "Difference Reflectivity" "Difference Reflectivity" with
          | .error err => .error err
          | .ok ea =>
          match add_field_to_radar_object ea
              { data := res.2.2.2, mask := none } "FI" ""
              "Ice Fraction" "Ice Fraction" with
          | .error err => .error err
          | .ok eb => .ok ((res.1, res.2.1), eb)
      match branch with
      | .error err => .error err
      | .ok (rm, e1) =>
        match add_field_to_radar_object e1 { data := rm.1, mask := none }
            "rain" "mm h-1" "Rainfall Rate" "Rainfall Rate" with
        | .error err => .error err
        | .ok e2 =>
        match add_field_to_radar_object e2 { data := rm.2, mask := none }
            "method" "" "Rainfall Method" "Rainfall Method" with
        | .error err => .error err
        | .ok e3 => .ok (e3, [])
    else .ok (e, ["Winter precip not enabled yet, sorry!"])

/-- `DualPolRetrieval.get_dsd`: call the external 2009-method DSD fit and
commit the D0, NW and MU fields. -/
def get_dsd (x : ExtLib) (e : Eng) : Except PyErr (Eng × List String) :=
  match getFieldData e e.name_dz with
  | .error err => .error err
  | .ok dz =>
  match getFieldData e e.name_dr with
  | .error err => .error err
  | .ok dr =>
  match getFieldDataOpt e e.name_kd with
  | .error err => .error err
  | .ok kd =>
    let res := x.calc_dsd dz dr kd e.band "2009"
    match add_field_to_radar_object e { data := res.1, mask := none } "D0"
        "mm" "Median Volume Diameter" "Median Volume Diameter" with
    | .error err => .error err
    | .ok e1 =>
    match add_field_to_radar_object e1 { data := res.2.1, mask := none } "NW"
        "mm-1 m-3" "Normalized Intercept Parameter"
        "Normalized Intercept Parameter" with
    | .error err => .error err
    | .ok e2 =>
    match add_field_to_radar_object e2 { data := res.2.2, mask := none } "MU"
        " " "Mu" "Mu" with
    | .error err => .error err
    | .ok e3 => .ok (e3, [])

/-- `DualPolRetrieval.get_liquid_and_frozen_mass`: call the external
liquid/ice mass algorithm on reflectivity, differential reflectivity, the
gate heights in km, and the temperature grid — which is passed through
verbatim even when it is `None` — and commit the MW and MI fields.  There
is no skip and no notice for a missing temperature grid. -/
def get_liquid_and_frozen_mass (x : ExtLib) (e : Eng) :
    Except PyErr (Eng × List String) :=
  match getFieldData e e.name_dz with
  | .error err => .error err
  | .ok dz =>
  match getFieldData e e.name_dr with
  | .error err => .error err
  | .ok dr =>
  match e.radar_z with
  | none => .error (.attrError "radar_z")
  | some rz =>
    let res := x.calc_liquid_ice_mass dz dr (rz.map (fun v => v / 1000))
      e.radar_T
    match add_field_to_radar_object e { data := res.1, mask := none } "MW"
        "g m-3" "Liquid Water Mass" "Liquid Water Mass" with
    | .error err => .error err
    | .ok e1 =>
    match add_field_to_radar_object e1 { data := res.2, mask := none } "MI"
        "g m-3" "Ice Water Mass" "Ice Water Mass" with
    | .error err => .error err
    | .ok e2 => .ok (e2, [])

/-- The resolved construction configuration: the source's keyword table
after `check_kwargs` has merged the user's options over `DEFAULT_KW`. -/
structure Kwargs where
  dz : String
  dr : String
  dp : Option String
  rh : String
  kd : Option String
  ld : Option String
  sounding : SoundingInput
  verbose : Bool
  thresh_sdp : Int
  fhc_T_factor : Int
  fhc_weights : List (String × Int)
  name_fhc : String
  band : String
  fhc_method : String
  kdp_method : String
  bad : Int
  use_temp : Bool
  ice_flag : Bool
  dsd_flag : Bool
  fhc_flag : Bool
  rain_method : String
  precip_flag : Bool
  liquid_ice_flag : Bool
  winter : Bool
  gs : Int
  qc_flag : Bool
  kdp_window : Int
  dz_range : List (Int × Int)
  name_sdp : String
  thresh_dr : List Int
  speckle : Nat
deriving DecidableEq

/-- The engine state `__init__` has assembled by the time `do_name_check`
runs (source lines 199-215).  Attributes the source only assigns later
(`T_flag` at line 221, `winter_flag` at 224, the QC and FHC settings
under their flags, `name_fhc` at 236) carry their eventual values from
the start; no code path reads one of them earlier, so this is
observationally equivalent. -/
def engOf (radar : Radar) (kw : Kwargs) : Eng :=
  { radar := radar, verbose := kw.verbose, name_dz := kw.dz,
    name_dr := kw.dr, name_kd := kw.kd, name_rh := kw.rh, name_ld := kw.ld,
    name_dp := kw.dp, name_fdp := none, kdp_method := kw.kdp_method,
    bad := kw.bad, thresh_sdp := kw.thresh_sdp, gs := kw.gs,
    name_sdp := kw.name_sdp, kdp_window := kw.kdp_window,
    T_flag := kw.use_temp, T_factor := kw.fhc_T_factor,
    winter_flag := kw.winter, name_fhc := kw.name_fhc,
    fhc_weights := kw.fhc_weights, fhc_method := kw.fhc_method,
    band := kw.band, snd := none, radar_z := none, radar_T := none,
    dz_range := kw.dz_range, dr_thresh := kw.thresh_dr,
    speckle := kw.speckle }

/-- The retrieval stages `__init__` runs after a successful name check
(source lines 220-258), in source order: sounding ingestion, optional QC,
optional classification, optional precipitation rate, optional DSD,
optional liquid/ice mass.  Notices accumulate in order. -/
def initStages (x : ExtLib) (e : Eng) (kw : Kwargs) :
    Except PyErr (Eng × List String) :=
  match get_sounding x e kw.sounding with
  | .error err => .error err
  | .ok (e, w1) =>
  match (if kw.qc_flag then do_qc x e else .ok (e, [])) with
  | .error err => .error err
  | .ok (e, w2) =>
  match (if kw.fhc_flag then get_hid x e else .ok (e, [])) with
  | .error err => .error err
  | .ok (e, w3) =>
  match (if kw.precip_flag then
         get_precip_rate x e kw.ice_flag kw.rain_method
         else .ok (e, [])) with
  | .error err => .error err
  | .ok (e, w4) =>
  match (if kw.dsd_flag then get_dsd x e else .ok (e, [])) with
  | .error err => .error err
  | .ok (e, w5) =>
  match (if kw.liquid_ice_flag then get_liquid_and_frozen_mass x e
         else .ok (e, [])) with
  | .error err => .error err
  | .ok (e, w6) => .ok (e, w1 ++ w2 ++ w3 ++ w4 ++ w5 ++ w6)

/-- The observable outcome of `DualPolRetrieval.__init__`: a fully
constructed engine with its notices; an early `return` leaving a
partially initialized object (the source's behaviour when
`do_name_check` fails — it warns and returns, and the half-built object
still exists); or an uncaught Python exception ending construction. -/
inductive InitOutcome where
  | ok (e : Eng) (notices : List String)
  | halted (e : Eng) (warnings : List String)
  | raised (err : PyErr)
deriving DecidableEq

def InitOutcome.isHalted : InitOutcome → Bool
  | .halted _ _ => true
  | _ => false

def InitOutcome.isRaised : InitOutcome → Bool
  | .raised _ => true
  | _ => false

/-- `DualPolRetrieval.__init__` over an already-validated Py-ART radar
object (the `do_radar_check` file-reading and duck-typing paths concern
invalid caller input and are not modelled; the `radar` argument here is a
genuine volume). -/
def initEngine (x : ExtLib) (radar : Radar) (kw : Kwargs) : InitOutcome :=
  let e0 := engOf radar kw
  match do_name_check x e0 with
  | .error err => .raised err
  | .ok (false, e1, ws) => .halted e1 ws
  | .ok (true, e1, ws1) =>
    match initStages x e1 kw with
    | .error err => .raised err
    | .ok (e2, ws2) => .ok e2 (ws1 ++ ws2)

/-- The source's `DEFAULT_KW` table.  The two entries taken verbatim from
external library constants (the classification weights and the insect
filter thresholds) are opaque external values and are instantiated with
empty tables; no control flow studied here depends on them. -/
def defaultKw : Kwargs :=
  { dz := "DZ", dr := "DR", dp := none, rh := "RH", kd := none, ld := none,
    sounding := .noSounding, verbose := false, thresh_sdp := 12,
    fhc_T_factor := 1, fhc_weights := [], name_fhc := "FH", band := "S",
    fhc_method := "hybrid", kdp_method := "CSU", bad := -32768,
    use_temp := true, ice_flag := false, dsd_flag := true, fhc_flag := true,
    rain_method := "hidro", precip_flag := true, liquid_ice_flag := true,
    winter := false, gs := 150, qc_flag := false, kdp_window := 3,
    dz_range := [], name_sdp := "SDP_CSU", thresh_dr := [], speckle := 4 }

/-- A volume lacking the default reflectivity field, for the C4
counterexample. -/
def radarNoDz : Radar :=
  { fields := [
      ("DR",
        { data := { data := [1, 2], mask := none }, units := "dB",
          long_name := "Differential Reflectivity",
          standard_name := "Differential Reflectivity", fillValue := none }),
      ("RH",
        { data := { data := [9, 9], mask := none }, units := "",
          long_name := "Correlation Coefficient",
          standard_name := "Correlation Coefficient", fillValue := none })],
    rng := [0, 150], azimuth := [0] }

/-- A volume lacking the correlation-coefficient field, for the C4
witness. -/
def radarNoRh : Radar :=
  { fields := [
      ("DZ",
        { data := { data := [10, 20], mask := none }, units := "dBZ",
          long_name := "Reflectivity", standard_name := "Reflectivity",
          fillValue := none }),
      ("DR",
        { data := { data := [1, 2], mask := none }, units := "dB",
          long_name := "Differential Reflectivity",
          standard_name := "Differential Reflectivity", fillValue := none })],
    rng := [0, 150], azimuth := [0] }

/-- A volume with reflectivity, differential reflectivity and KDP but no
classification field, for the C5 witness. -/
def radarPrecip : Radar :=
  { fields := [
      ("DZ",
        { data := { data := [10, 20], mask := some [false, true] },
          units := "dBZ", long_name := "Reflectivity",
          standard_name := "Reflectivity", fillValue := some (-32768) }),
      ("DR",
        { data := { data := [1, 2], mask := none }, units := "dB",
          long_name := "Differential Reflectivity",
          standard_name := "Differential Reflectivity", fillValue := none }),
      ("KDP_CSU",
        { data := { data := [3, 4], mask := some [false, true] },
          units := "deg km-1", long_name := "Specific Differential Phase",
          standard_name := "KDP", fillValue := some (-32768) })],
    rng := [0, 150], azimuth := [0] }

/-- The engine over `radarPrecip` with a KDP binding and no committed
classification field. -/
def engPrecip : Eng := { engOver radarPrecip with name_kd := some "KDP_CSU" }

/-- An engine in degraded mode: no usable sounding was ingested, so the
temperature grid is `None`, while the gate-height grid exists. -/
def engDegraded : Eng := { engQC with radar_z := some [1000, 2000, 3000] }

theorem findField_map_replace (fs : List (String × RField)) (n : String)
    (f : RField) (h : hasFieldKey fs n = true) :
    findField (fs.map (fun p => if p.1 = n then (n, f) else p)) n = some f := by
  induction fs with
  | nil => simp [hasFieldKey] at h
  | cons a tl ih =>
    by_cases ha : a.1 = n
    · simp [findField, ha]
    · simp only [hasFieldKey, ha, if_false] at h
      simp [findField, ha, ih h]

theorem findField_append_absent (fs : List (String × RField)) (n : String)
    (f : RField) (h : hasFieldKey fs n = false) :
    findField (fs ++ [(n, f)]) n = some f := by
  induction fs with
  | nil => simp [findField]
  | cons a tl ih =>
    by_cases ha : a.1 = n
    · simp [hasFieldKey, ha] at h
    · simp only [hasFieldKey, ha, if_false] at h
      simp [findField, ha, ih h]

theorem lookupField_add_field_self (r : Radar) (n : String) (f : RField) :
    lookupField (Radar.add_field r n f) n = some f := by
  show findField (insertField r.fields n f) n = some f
  unfold insertField
  by_cases h : hasFieldKey r.fields n = true
  · rw [if_pos h]; exact findField_map_replace _ _ _ h
  · rw [if_neg h]; exact findField_append_absent _ _ _ (Bool.eq_false_iff.mpr h)

theorem findField_map_replace_ne (fs : List (String × RField)) (n n' : String)
    (f : RField) (h : n' ≠ n) :
    findField (fs.map (fun p => if p.1 = n then (n, f) else p)) n' =
      findField fs n' := by
  induction fs with
  | nil => rfl
  | cons a tl ih =>
    by_cases ha : a.1 = n
    · have h3 : ¬ a.1 = n' := by rw [ha]; exact fun hh => h hh.symm
      have h2 : ¬ n = n' := fun hh => h hh.symm
      simp [findField, ha, h2, h3, ih]
    · by_cases hb : a.1 = n'
      · simp [findField, ha, hb, h]
      · simp [findField, ha, hb, ih]

theorem findField_append_ne (fs : List (String × RField)) (n n' : String)
    (f : RField) (h : n' ≠ n) :
    findField (fs ++ [(n, f)]) n' = findField fs n' := by
  induction fs with
  | nil =>
    have h2 : ¬ n = n' := fun hh => h hh.symm
    simp [findField, h2]
  | cons a tl ih =>
    by_cases hb : a.1 = n'
    · simp [findField, hb]
    · simp [findField, hb, ih]

theorem lookupField_add_field_ne (r : Radar) (n n' : String) (f : RField)
    (h : n' ≠ n) :
    lookupField (Radar.add_field r n f) n' = lookupField r n' := by
  show findField (insertField r.fields n f) n' = findField r.fields n'
  unfold insertField
  by_cases hmem : hasFieldKey r.fields n = true
  · rw [if_pos hmem]; exact findField_map_replace_ne _ _ _ _ h
  · rw [if_neg hmem]; exact findField_append_ne _ _ _ _ h

theorem lookupField_commitField_self (e : Eng) (n : String) (f : RField) :
    lookupField (commitField e n f).radar n = some f :=
  lookupField_add_field_self _ _ _

theorem lookupField_commitField_ne (e : Eng) (n n' : String) (f : RField)
    (h : n' ≠ n) :
    lookupField (commitField e n f).radar n' = lookupField e.radar n' :=
  lookupField_add_field_ne _ _ _ _ h

/-- Claim C1: for every derived field committed to the radar volume via
`add_field_to_radar_object`, at the time of commit the new field's mask
equals, gate for gate, the current mask of the base reflectivity field,
and the new field's fill value is the base reflectivity field's fill value
when the base field carries a mask, else the configured bad-data
sentinel. -/
theorem add_field_mask_and_fill_propagation (e : Eng) (f : NDArr)
    (nm u ln sn : String) (dzf : RField)
    (hdz : lookupField e.radar e.name_dz = some dzf)
    (hfv : ∀ m, dzf.data.mask = some m → dzf.fillValue.isSome) :
    ∃ e' nf, add_field_to_radar_object e f nm u ln sn = .ok e' ∧
      lookupField e'.radar nm = some nf ∧ nf.data.data = f.data ∧
      (∀ m, dzf.data.mask = some m →
        nf.data.mask = some m ∧ nf.fillValue = dzf.fillValue) ∧
      (dzf.data.mask = none → nf.fillValue = some e.bad) := by
  cases hm : dzf.data.mask with
  | some m =>
    obtain ⟨fv, hfv2⟩ := Option.isSome_iff_exists.mp (hfv m hm)
    have heq : add_field_to_radar_object e f nm u ln sn =
        .ok (commitField e nm
          { data := { data := f.data, mask := some m }, units := u,
            long_name := ln, standard_name := sn, fillValue := some fv }) := by
      unfold add_field_to_radar_object
      rw [hdz]; dsimp only; rw [hm]; dsimp only; rw [hfv2]
    refine ⟨_, _, heq, lookupField_commitField_self _ _ _, rfl, ?_, ?_⟩
    · intro m' hm'
      obtain rfl := Option.some.inj hm'
      exact ⟨rfl, hfv2.symm⟩
    · intro hnone
      exact Option.noConfusion hnone
  | none =>
    have heq : add_field_to_radar_object e f nm u ln sn =
        .ok (commitField e nm
          { data := f, units := u, long_name := ln, standard_name := sn,
            fillValue := some e.bad }) := by
      unfold add_field_to_radar_object
      rw [hdz]; dsimp only; rw [hm]
    refine ⟨_, _, heq, lookupField_commitField_self _ _ _, rfl, ?_, fun _ => rfl⟩
    intro m' hm'
    exact Option.noConfusion hm'

/-- Claim C10: when the base reflectivity field's data array carries no
mask, every field committed via `add_field_to_radar_object` receives the
configured bad-data sentinel as its fill value and no mask is copied onto
it from the base field: the committed array is the input array verbatim,
keeping whatever mask it already had. -/
theorem add_field_no_base_mask_keeps_input (e : Eng) (f : NDArr)
    (nm u ln sn : String) (dzf : RField)
    (hdz : lookupField e.radar e.name_dz = some dzf)
    (hm : dzf.data.mask = none) :
    ∃ e', add_field_to_radar_object e f nm u ln sn = .ok e' ∧
      lookupField e'.radar nm =
        some { data := f, units := u, long_name := ln, standard_name := sn,
               fillValue := some e.bad } := by
  have heq : add_field_to_radar_object e f nm u ln sn =
      .ok (commitField e nm
        { data := f, units := u, long_name := ln, standard_name := sn,
          fillValue := some e.bad }) := by
    unfold add_field_to_radar_object
    rw [hdz]; dsimp only; rw [hm]
  exact ⟨_, heq, lookupField_commitField_self _ _ _⟩

/-- Witness for C1 at a concrete masked volume. -/
theorem add_field_mask_and_fill_propagation_witness :
    ∃ e' nf,
      add_field_to_radar_object (engOver radarMasked)
        { data := [1, 2, 3], mask := none } "FH" "unitless"
        "Hydrometeor ID" "Hydrometeor ID" = .ok e' ∧
      lookupField e'.radar "FH" = some nf ∧
      nf.data.data = [1, 2, 3] ∧
      (∀ m, (some [false, true, false] : Option (List Bool)) = some m →
        nf.data.mask = some m ∧ nf.fillValue = some (-32768)) ∧
      ((some [false, true, false] : Option (List Bool)) = none →
        nf.fillValue = some (engOver radarMasked).bad) := by
  have h := add_field_mask_and_fill_propagation (engOver radarMasked)
    { data := [1, 2, 3], mask := none } "FH" "unitless"
    "Hydrometeor ID" "Hydrometeor ID"
    { data := { data := [10, 20, 30], mask := some [false, true, false] },
      units := "dBZ", long_name := "Reflectivity",
      standard_name := "Reflectivity", fillValue := some (-32768) }
    (by decide) (by intro m hm; decide)
  obtain ⟨e', nf, h1, h2, h3, h4, h5⟩ := h
  exact ⟨e', nf, h1, h2, h3, fun m hm => (h4 m hm).imp id (fun hh => by
    rw [hh]), h5⟩

/-- Witness for C10 at a concrete unmasked volume: the committed field
keeps its own (here absent) mask and gets the bad-data sentinel as fill
value. -/
theorem add_field_no_base_mask_keeps_input_witness :
    ∃ e', add_field_to_radar_object (engOver radarPlain)
        { data := [4, 5, 6], mask := some [true, false, false] } "rain"
        "mm h-1" "Rainfall Rate" "Rainfall Rate" = .ok e' ∧
      lookupField e'.radar "rain" =
        some { data := { data := [4, 5, 6], mask := some [true, false, false] },
               units := "mm h-1", long_name := "Rainfall Rate",
               standard_name := "Rainfall Rate",
               fillValue := some (engOver radarPlain).bad } := by
  exact add_field_no_base_mask_keeps_input (engOver radarPlain)
    { data := [4, 5, 6], mask := some [true, false, false] } "rain"
    "mm h-1" "Rainfall Rate" "Rainfall Rate"
    { data := { data := [10, 20, 30], mask := none },
      units := "dBZ", long_name := "Reflectivity",
      standard_name := "Reflectivity", fillValue := none }
    (by decide) (by decide)

/-- Claim C2 (refuted by evaluation): on the sounding with heights
`[0, 5, 1, 2]` and all temperatures valid, `check_sounding_for_montonic`
keeps the heights `[0, 5, 2]` — entry `2` is kept because it exceeds the
immediately preceding ORIGINAL height `1`, not the previously KEPT height
`5` — so the kept profile is not strictly increasing, contradicting the
claim (and the function's own docstring, which promises that after
normalization `z` always increases). -/
theorem check_sounding_montonic_bug_eval :
    ((check_sounding_for_montonic engBugC2).toOption.bind Eng.snd).map
        Sounding.z = some [0, 5, 2] ∧
      strictlyIncreasing [0, 5, 2] = false := by
  exact ⟨rfl, rfl⟩

theorem montonicKeep_id (z0 : Int) (zs ts : List Int) (ms : List Bool)
    (hmono : strictlyIncreasing (z0 :: zs) = true)
    (hvalid : ∀ b ∈ ms, b = false)
    (hlenT : ts.length = zs.length) (hlenM : ms.length = zs.length) :
    montonicKeep z0 zs ts ms = zs.zip ts := by
  induction zs generalizing z0 ts ms with
  | nil => cases ts <;> cases ms <;> simp [montonicKeep]
  | cons z1 zs' ih =>
    cases ts with
    | nil => simp at hlenT
    | cons t1 ts' =>
      cases ms with
      | nil => simp at hlenM
      | cons m1 ms' =>
        by_cases hz : z0 < z1
        · have hmono' : strictlyIncreasing (z1 :: zs') = true := by
            simpa [strictlyIncreasing, hz] using hmono
          have hm1 : m1 = false := hvalid m1 (by simp)
          have hrest := ih z1 ts' ms' hmono'
            (fun b hb => hvalid b (by simp [hb]))
            (by simpa using hlenT) (by simpa using hlenM)
          simp [montonicKeep, hz, hm1, hrest, List.zip]
        · simp [strictlyIncreasing, hz] at hmono

/-- Claim C7: applying `check_sounding_for_montonic` to a profile that is
already normalized — strictly increasing heights and no masked-invalid
temperatures — yields the identical profile: the same heights and
temperatures, in the same order. -/
theorem check_sounding_identity_on_normalized (e : Eng) (s : Sounding)
    (m : List Bool) (hs : e.snd = some s) (hm : s.Tmask = some m)
    (hmono : strictlyIncreasing s.z = true)
    (hvalid : ∀ b ∈ m, b = false)
    (hlenT : s.T.length = s.z.length) (hlenM : m.length = s.z.length)
    (hne : s.z ≠ []) :
    ∃ s', check_sounding_for_montonic e = .ok { e with snd := some s' } ∧
      s'.z = s.z ∧ s'.T = s.T := by
  cases hz : s.z with
  | nil => exact absurd hz hne
  | cons z0 zs =>
    cases hT : s.T with
    | nil => rw [hz, hT] at hlenT; simp at hlenT
    | cons t0 ts =>
      cases hM : m with
      | nil => rw [hz, hM] at hlenM; simp at hlenM
      | cons m0 ms =>
        have hm0 : m0 = false := hvalid m0 (by simp [hM])
        have hkeep : montonicKeep z0 zs ts ms = zs.zip ts := by
          refine montonicKeep_id z0 zs ts ms ?_ ?_ ?_ ?_
          · rw [← hz]; exact hmono
          · intro b hb; exact hvalid b (by simp [hM, hb])
          · have h1 := hlenT; rw [hz, hT] at h1; simpa using h1
          · have h1 := hlenM; rw [hz, hM] at h1; simpa using h1
        have hlz : zs.length ≤ ts.length := by
          have h1 := hlenT; rw [hz, hT] at h1
          simp at h1; omega
        have hlt : ts.length ≤ zs.length := by
          have h1 := hlenT; rw [hz, hT] at h1
          simp at h1; omega
        refine ⟨{ z := ((z0, t0) :: zs.zip ts).map Prod.fst,
                  T := ((z0, t0) :: zs.zip ts).map Prod.snd,
                  Tmask := none }, ?_, ?_, ?_⟩
        · simp only [check_sounding_for_montonic, hs, hm, hM, hz, hT, hm0,
            hkeep]
          rfl
        · show ((z0, t0) :: zs.zip ts).map Prod.fst = z0 :: zs
          simp [List.map_fst_zip zs ts hlz]
        · show ((z0, t0) :: zs.zip ts).map Prod.snd = t0 :: ts
          simp [List.map_snd_zip zs ts hlt]

/-- Witness for C7 at a concrete already-normalized profile. -/
theorem check_sounding_identity_on_normalized_witness :
    ∃ s', check_sounding_for_montonic engNormC7 =
        .ok { engNormC7 with snd := some s' } ∧
      s'.z = [1, 3, 5] ∧ s'.T = [2, 1, 0] := by
  have h := check_sounding_identity_on_normalized engNormC7
    { z := [1, 3, 5], T := [2, 1, 0], Tmask := some [false, false, false] }
    [false, false, false] rfl rfl (by decide) (by decide) rfl rfl
    (by decide)
  exact h

/-- Claim C3: when the quality-control stage runs (phase-noise-stddev
field present, and the reflectivity data a masked array, as the final
`setattr` of its mask requires — on a plain ndarray the source raises
`AttributeError`), the reflectivity field's mask afterwards equals
exactly the union of the insect/clutter rejection mask, the phase-noise
rejection mask, and the speckle mask computed over the composite of the
first two, gate for gate (and the previous reflectivity mask is replaced
by that union). -/
theorem do_qc_final_mask_is_triple_union (x : ExtLib) (e : Eng)
    (hs : hasField e.radar e.name_sdp = true)
    (dzv drv sdpv : List Int)
    (hdz : extract_unmasked_data e e.name_dz = .ok dzv)
    (hdr : extract_unmasked_data e e.name_dr = .ok drv)
    (hsdp : extract_unmasked_data e e.name_sdp = .ok sdpv)
    (dzf : RField) (hdzf : lookupField e.radar e.name_dz = some dzf)
    (km : List Bool) (hkm : dzf.data.mask = some km) :
    ∃ e', do_qc x e = .ok (e', []) ∧
      (lookupField e'.radar e.name_dz).map (fun fl => fl.data.mask) =
        some (some (List.zipWith (fun a b => a || b)
          (List.zipWith (fun a b => a || b)
            (x.insect_filter dzv drv e.dz_range e.dr_thresh e.bad)
            (x.differential_phase_filter sdpv e.thresh_sdp))
          (x.despeckle
            ((dzv.zip (List.zipWith (fun a b => a || b)
              (x.insect_filter dzv drv e.dz_range e.dr_thresh e.bad)
              (x.differential_phase_filter sdpv e.thresh_sdp))).map
              (fun p => if p.2 then e.bad else p.1))
            e.bad e.speckle))) := by
  have heq : do_qc x e = .ok (commitField e e.name_dz
      { dzf with data := { dzf.data with
          mask := some (List.zipWith (fun a b => a || b)
            (List.zipWith (fun a b => a || b)
              (x.insect_filter dzv drv e.dz_range e.dr_thresh e.bad)
              (x.differential_phase_filter sdpv e.thresh_sdp))
            (x.despeckle
              ((dzv.zip (List.zipWith (fun a b => a || b)
                (x.insect_filter dzv drv e.dz_range e.dr_thresh e.bad)
                (x.differential_phase_filter sdpv e.thresh_sdp))).map
                (fun p => if p.2 then e.bad else p.1))
              e.bad e.speckle)) } }, []) := by
    unfold do_qc
    rw [hs, if_neg (by decide)]
    rw [hdz]; dsimp only
    rw [hdr]; dsimp only
    rw [hsdp]; dsimp only
    rw [hdzf]; dsimp only
    rw [hkm]
  refine ⟨_, heq, ?_⟩
  rw [lookupField_commitField_self]
  rfl

/-- Witness for C3 at a concrete volume and concrete external filters. -/
theorem do_qc_final_mask_is_triple_union_witness :
    ∃ e', do_qc extW engQC = .ok (e', []) ∧
      (lookupField e'.radar engQC.name_dz).map (fun fl => fl.data.mask) =
        some (some [false, true, true]) := by
  obtain ⟨e', h1, h2⟩ := do_qc_final_mask_is_triple_union extW engQC
    (by decide) [10, -32768, 30] [1, 2, 3] [4, 5, 20] rfl rfl rfl
    { data := { data := [10, 20, 30], mask := some [false, true, false] },
      units := "dBZ", long_name := "Reflectivity",
      standard_name := "Reflectivity", fillValue := some (-32768) } rfl
    [false, true, false] rfl
  exact ⟨e', h1, h2.trans (by rfl)⟩

/-- Claim C9: invoking the quality-control stage while the phase-noise
stddev field is absent is a no-op reported with a warning: the engine, and
in particular every field of the volume, is returned unchanged. -/
theorem do_qc_noop_without_sdp (x : ExtLib) (e : Eng)
    (h : hasField e.radar e.name_sdp = false) :
    do_qc x e = .ok (e, ["Cannot do QC, no SDP field identified"]) := by
  unfold do_qc
  rw [h, if_pos rfl]

/-- Witness for C9: a volume with no SDP field passes through QC
untouched. -/
theorem do_qc_noop_without_sdp_witness :
    do_qc extW (engOver radarMasked) =
      .ok (engOver radarMasked, ["Cannot do QC, no SDP field identified"]) :=
  do_qc_noop_without_sdp extW (engOver radarMasked) (by decide)

theorem add_field_eq_of_masked (e : Eng) (f : NDArr) (nm u ln sn : String)
    (dzf : RField) (hdz : lookupField e.radar e.name_dz = some dzf)
    (km : List Bool) (hkm : dzf.data.mask = some km)
    (fv : Int) (hfv : dzf.fillValue = some fv) :
    add_field_to_radar_object e f nm u ln sn =
      .ok (commitField e nm
        { data := { data := f.data, mask := some km }, units := u,
          long_name := ln, standard_name := sn, fillValue := some fv }) := by
  unfold add_field_to_radar_object
  rw [hdz]; dsimp only; rw [hkm]; dsimp only; rw [hfv]

theorem do_name_check_routes_to_calculate_kdp (x : ExtLib) (e : Eng)
    (hdz : hasField e.radar e.name_dz = true)
    (hdr : hasField e.radar e.name_dr = true)
    (hrh : hasField e.radar e.name_rh = true)
    (hld : e.name_ld = none) (hkd : e.name_kd = none) :
    do_name_check x e = calculate_kdp x e := by
  unfold do_name_check
  rw [hdz]
  simp only [eq_self_iff_true, if_true]
  rw [hdr]
  simp only [eq_self_iff_true, if_true]
  rw [hrh]
  simp only [eq_self_iff_true, if_true]
  rw [hld]
  dsimp only
  rw [hkd]

theorem calculate_kdp_commits (x : ExtLib) (e : Eng)
    (ndp : String) (hdp : e.name_dp = some ndp)
    (hdpf : hasField e.radar ndp = true)
    (hmeth : e.kdp_method = "CSU")
    (dzf : RField) (hdzf : lookupField e.radar e.name_dz = some dzf)
    (km : List Bool) (hkm : dzf.data.mask = some km)
    (fv : Int) (hfv : dzf.fillValue = some fv)
    (dpv dzv : List Int)
    (hdpv : extract_unmasked_data e ndp = .ok dpv)
    (hdzv : extract_unmasked_data e e.name_dz = .ok dzv)
    (hne1 : e.name_dz ≠ "FDP_CSU") (hne2 : e.name_dz ≠ e.name_sdp) :
    calculate_kdp x e = .ok (true,
      kdpResultEng e
        (x.calc_kdp_bringi dpv dzv (rng2dOf e.radar) e.gs e.thresh_sdp e.bad).1
        (x.calc_kdp_bringi dpv dzv (rng2dOf e.radar) e.gs e.thresh_sdp e.bad).2.1
        (x.calc_kdp_bringi dpv dzv (rng2dOf e.radar) e.gs e.thresh_sdp e.bad).2.2
        km fv, []) := by
  have hF : ("FDP_" ++ e.kdp_method) = "FDP_CSU" := by rw [hmeth]; rfl
  have hK : ("KDP_" ++ e.kdp_method) = "KDP_CSU" := by rw [hmeth]; rfl
  have hne1' : e.name_dz ≠ "FDP_" ++ e.kdp_method := by rw [hmeth]; exact hne1
  have hx1 := add_field_eq_of_masked
    { e with name_fdp := some ("FDP_" ++ e.kdp_method) }
    { data := (x.calc_kdp_bringi dpv dzv (rng2dOf e.radar) e.gs e.thresh_sdp
        e.bad).2.1, mask := none }
    ("FDP_" ++ e.kdp_method) "deg" "Filtered Differential Phase"
    "Filtered Differential Phase" dzf hdzf km hkm fv hfv
  have hdzf2 : lookupField
      (commitField { e with name_fdp := some ("FDP_" ++ e.kdp_method) }
        ("FDP_" ++ e.kdp_method)
        { data := { data := (x.calc_kdp_bringi dpv dzv (rng2dOf e.radar)
            e.gs e.thresh_sdp e.bad).2.1, mask := some km }, units := "deg",
          long_name := "Filtered Differential Phase",
          standard_name := "Filtered Differential Phase",
          fillValue := some fv }).radar e.name_dz = some dzf :=
    (lookupField_commitField_ne _ _ _ _ hne1').trans hdzf
  have hx2 := add_field_eq_of_masked
    (commitField { e with name_fdp := some ("FDP_" ++ e.kdp_method) }
      ("FDP_" ++ e.kdp_method)
      { data := { data := (x.calc_kdp_bringi dpv dzv (rng2dOf e.radar)
          e.gs e.thresh_sdp e.bad).2.1, mask := some km }, units := "deg",
        long_name := "Filtered Differential Phase",
        standard_name := "Filtered Differential Phase",
        fillValue := some fv })
    { data := (x.calc_kdp_bringi dpv dzv (rng2dOf e.radar) e.gs e.thresh_sdp
        e.bad).2.2, mask := none }
    e.name_sdp "deg" "Standard Deviation of Differential Phase"
    "Std Dev Differential Phase" dzf hdzf2 km hkm fv hfv
  have hcall : call_csu_kdp x e = .ok
      ((x.calc_kdp_bringi dpv dzv (rng2dOf e.radar) e.gs e.thresh_sdp
        e.bad).1,
      commitField
        (commitField { e with name_fdp := some ("FDP_" ++ e.kdp_method) }
          ("FDP_" ++ e.kdp_method)
          { data := { data := (x.calc_kdp_bringi dpv dzv (rng2dOf e.radar)
              e.gs e.thresh_sdp e.bad).2.1, mask := some km },
            units := "deg", long_name := "Filtered Differential Phase",
            standard_name := "Filtered Differential Phase",
            fillValue := some fv })
        e.name_sdp
        { data := { data := (x.calc_kdp_bringi dpv dzv (rng2dOf e.radar)
            e.gs e.thresh_sdp e.bad).2.2, mask := some km }, units := "deg",
          long_name := "Standard Deviation of Differential Phase",
          standard_name := "Std Dev Differential Phase",
          fillValue := some fv }) := by
    unfold call_csu_kdp
    rw [show e.name_dp.getD "None" = ndp from by rw [hdp]; rfl]
    rw [hdpv]
    dsimp only
    rw [hdzv]
    dsimp only
    rw [hx1]
    dsimp only
    rw [hx2]
  have hdzf3 : lookupField
      (commitField
        (commitField { e with name_fdp := some ("FDP_" ++ e.kdp_method) }
          ("FDP_" ++ e.kdp_method)
          { data := { data := (x.calc_kdp_bringi dpv dzv (rng2dOf e.radar)
              e.gs e.thresh_sdp e.bad).2.1, mask := some km },
            units := "deg", long_name := "Filtered Differential Phase",
            standard_name := "Filtered Differential Phase",
            fillValue := some fv })
        e.name_sdp
        { data := { data := (x.calc_kdp_bringi dpv dzv (rng2dOf e.radar)
            e.gs e.thresh_sdp e.bad).2.2, mask := some km }, units := "deg",
          long_name := "Standard Deviation of Differential Phase",
          standard_name := "Std Dev Differential Phase",
          fillValue := some fv }).radar e.name_dz = some dzf :=
    (lookupField_commitField_ne _ _ _ _ hne2).trans hdzf2
  have hup : pyUpper e.kdp_method = "CSU" := by rw [hmeth]; rfl
  have hx3 := add_field_eq_of_masked
    { (commitField
        (commitField { e with name_fdp := some ("FDP_" ++ e.kdp_method) }
          ("FDP_" ++ e.kdp_method)
          { data := { data := (x.calc_kdp_bringi dpv dzv (rng2dOf e.radar)
              e.gs e.thresh_sdp e.bad).2.1, mask := some km },
            units := "deg", long_name := "Filtered Differential Phase",
            standard_name := "Filtered Differential Phase",
            fillValue := some fv })
        e.name_sdp
        { data := { data := (x.calc_kdp_bringi dpv dzv (rng2dOf e.radar)
            e.gs e.thresh_sdp e.bad).2.2, mask := some km }, units := "deg",
          long_name := "Standard Deviation of Differential Phase",
          standard_name := "Std Dev Differential Phase",
          fillValue := some fv }) with name_kd := some ("KDP_" ++ e.kdp_method) }
    { data := (x.calc_kdp_bringi dpv dzv (rng2dOf e.radar) e.gs e.thresh_sdp
        e.bad).1, mask := none }
    ("KDP_" ++ e.kdp_method) "deg km-1" "Specific Differential Phase" "KDP"
    dzf hdzf3 km hkm fv hfv
  unfold calculate_kdp
  rw [hdp]
  dsimp only
  rw [hdpf]
  simp only [eq_self_iff_true, if_true]
  rw [hup]
  simp only [eq_self_iff_true, if_true]
  rw [hcall]
  dsimp only
  rw [hx3]
  dsimp only
  unfold kdpResultEng
  rw [hF, hK]

/-- Claim C8: for a volume lacking the specific-differential-phase field
but containing differential phase, construction-time name resolution
computes KDP via the external estimator and commits it under the
documented derived name `KDP_CSU` (`'KDP_' + kdp_method`), together with
the filtered differential phase (`FDP_CSU`) and phase-noise stddev
(`name_sdp`) fields, all through the masking propagation rule: each
committed field carries the base reflectivity field's mask and fill value
and holds the corresponding output array of the external estimator. -/
theorem do_name_check_kdp_fallback_commits (x : ExtLib) (e : Eng)
    (hdz : hasField e.radar e.name_dz = true)
    (hdr : hasField e.radar e.name_dr = true)
    (hrh : hasField e.radar e.name_rh = true)
    (hld : e.name_ld = none) (hkd : e.name_kd = none)
    (ndp : String) (hdp : e.name_dp = some ndp)
    (hdpf : hasField e.radar ndp = true)
    (hmeth : e.kdp_method = "CSU")
    (dzf : RField) (hdzf : lookupField e.radar e.name_dz = some dzf)
    (km : List Bool) (hkm : dzf.data.mask = some km)
    (fv : Int) (hfv : dzf.fillValue = some fv)
    (dpv dzv : List Int)
    (hdpv : extract_unmasked_data e ndp = .ok dpv)
    (hdzv : extract_unmasked_data e e.name_dz = .ok dzv)
    (hne1 : e.name_dz ≠ "FDP_CSU") (hne2 : e.name_dz ≠ e.name_sdp)
    (hne3 : "FDP_CSU" ≠ e.name_sdp) (hne5 : e.name_sdp ≠ "KDP_CSU") :
    ∃ e', do_name_check x e = .ok (true, e', []) ∧
      e'.name_kd = some "KDP_CSU" ∧
      lookupField e'.radar "KDP_CSU" = some
        { data := { data := (x.calc_kdp_bringi dpv dzv (rng2dOf e.radar)
            e.gs e.thresh_sdp e.bad).1, mask := some km },
          units := "deg km-1", long_name := "Specific Differential Phase",
          standard_name := "KDP", fillValue := some fv } ∧
      lookupField e'.radar "FDP_CSU" = some
        { data := { data := (x.calc_kdp_bringi dpv dzv (rng2dOf e.radar)
            e.gs e.thresh_sdp e.bad).2.1, mask := some km },
          units := "deg", long_name := "Filtered Differential Phase",
          standard_name := "Filtered Differential Phase",
          fillValue := some fv } ∧
      lookupField e'.radar e.name_sdp = some
        { data := { data := (x.calc_kdp_bringi dpv dzv (rng2dOf e.radar)
            e.gs e.thresh_sdp e.bad).2.2, mask := some km },
          units := "deg",
          long_name := "Standard Deviation of Differential Phase",
          standard_name := "Std Dev Differential Phase",
          fillValue := some fv } := by
  refine ⟨kdpResultEng e
      (x.calc_kdp_bringi dpv dzv (rng2dOf e.radar) e.gs e.thresh_sdp e.bad).1
      (x.calc_kdp_bringi dpv dzv (rng2dOf e.radar) e.gs e.thresh_sdp e.bad).2.1
      (x.calc_kdp_bringi dpv dzv (rng2dOf e.radar) e.gs e.thresh_sdp e.bad).2.2
      km fv, ?_, rfl, ?_, ?_, ?_⟩
  · rw [do_name_check_routes_to_calculate_kdp x e hdz hdr hrh hld hkd]
    exact calculate_kdp_commits x e ndp hdp hdpf hmeth dzf hdzf km hkm fv hfv
      dpv dzv hdpv hdzv hne1 hne2
  · exact lookupField_commitField_self _ _ _
  · exact (lookupField_commitField_ne _ "KDP_CSU" "FDP_CSU" _ (by decide)).trans
      ((lookupField_commitField_ne _ e.name_sdp "FDP_CSU" _ hne3).trans
        (lookupField_commitField_self _ "FDP_CSU" _))
  · exact (lookupField_commitField_ne _ "KDP_CSU" e.name_sdp _ hne5).trans
      (lookupField_commitField_self _ e.name_sdp _)

/-- Witness for C8 at a concrete volume (no KDP field, DP present) and a
concrete external estimator. -/
theorem do_name_check_kdp_fallback_commits_witness :
    ∃ e', do_name_check extW engKdp = .ok (true, e', []) ∧
      e'.name_kd = some "KDP_CSU" ∧
      lookupField e'.radar "KDP_CSU" = some
        { data := { data := [30, 40], mask := some [false, true] },
          units := "deg km-1", long_name := "Specific Differential Phase",
          standard_name := "KDP", fillValue := some (-32768) } ∧
      lookupField e'.radar "FDP_CSU" = some
        { data := { data := [10, -32768], mask := some [false, true] },
          units := "deg", long_name := "Filtered Differential Phase",
          standard_name := "Filtered Differential Phase",
          fillValue := some (-32768) } ∧
      lookupField e'.radar engKdp.name_sdp = some
        { data := { data := [31, 41], mask := some [false, true] },
          units := "deg",
          long_name := "Standard Deviation of Differential Phase",
          standard_name := "Std Dev Differential Phase",
          fillValue := some (-32768) } := by
  obtain ⟨e', h1, h2, h3, h4, h5⟩ := do_name_check_kdp_fallback_commits extW
    engKdp (by decide) (by decide) (by decide) rfl rfl "DP" rfl (by decide)
    rfl
    { data := { data := [10, 20], mask := some [false, true] },
      units := "dBZ", long_name := "Reflectivity",
      standard_name := "Reflectivity", fillValue := some (-32768) }
    rfl [false, true] rfl (-32768) rfl [30, 40] [10, -32768] rfl rfl
    (by decide) (by decide) (by decide) (by decide)
  exact ⟨e', h1, h2, h3.trans (by rfl), h4.trans (by rfl), h5.trans (by rfl)⟩

/-- Claim C5: when the classification-driven rain method `'hidro'` is
selected but the classification output field was never committed (the
classification stage being disabled), the precipitation stage signals the
missing-dependency error — the volume lookup of `name_fhc` raises — and
the external rain algorithm is never invoked: the result is this same
error for every possible external algorithm library `x`. -/
theorem get_precip_rate_hidro_without_fhc_errors (x : ExtLib) (e : Eng)
    (hw : e.winter_flag = false)
    (dzf : RField) (hdz : lookupField e.radar e.name_dz = some dzf)
    (drf : RField) (hdr : lookupField e.radar e.name_dr = some drf)
    (nkd : String) (hkd : e.name_kd = some nkd)
    (kdf : RField) (hkdf : lookupField e.radar nkd = some kdf)
    (ice : Bool)
    (hfhc : lookupField e.radar e.name_fhc = none) :
    get_precip_rate x e ice "hidro" = .error (.keyError e.name_fhc) := by
  have hdzd : getFieldData e e.name_dz = .ok dzf.data := by
    unfold getFieldData; rw [hdz]
  have hdrd : getFieldData e e.name_dr = .ok drf.data := by
    unfold getFieldData; rw [hdr]
  have hkdd : getFieldDataOpt e e.name_kd = .ok kdf.data := by
    unfold getFieldDataOpt
    rw [hkd]
    dsimp only
    unfold getFieldData
    rw [hkdf]
  have hfhcd : getFieldData e e.name_fhc = .error (.keyError e.name_fhc) := by
    unfold getFieldData; rw [hfhc]
  unfold get_precip_rate
  rw [hdzd]
  dsimp only
  rw [hdrd]
  dsimp only
  rw [hkdd]
  dsimp only
  rw [hw]
  simp only [eq_self_iff_true, if_true]
  rw [hfhcd]

/-- Witness for C5 at a concrete volume with no committed classification
field. -/
theorem get_precip_rate_hidro_without_fhc_errors_witness :
    get_precip_rate extW engPrecip false "hidro" =
      .error (.keyError engPrecip.name_fhc) :=
  get_precip_rate_hidro_without_fhc_errors extW engPrecip rfl
    { data := { data := [10, 20], mask := some [false, true] },
      units := "dBZ", long_name := "Reflectivity",
      standard_name := "Reflectivity", fillValue := some (-32768) } rfl
    { data := { data := [1, 2], mask := none }, units := "dB",
      long_name := "Differential Reflectivity",
      standard_name := "Differential Reflectivity", fillValue := none } rfl
    "KDP_CSU" rfl
    { data := { data := [3, 4], mask := some [false, true] },
      units := "deg km-1", long_name := "Specific Differential Phase",
      standard_name := "KDP", fillValue := some (-32768) } rfl
    false rfl

/-- Claim C6 (the skip clause refuted by evaluation): with the
temperature grid undefined (`radar_T = None`), the liquid/ice mass stage
is not skipped and emits no notice: it runs, invokes the external mass
algorithm, and commits an `MW` field that was not previously in the
volume. -/
theorem get_liquid_mass_runs_with_undefined_temperature :
    engDegraded.radar_T = none ∧
    lookupField engDegraded.radar "MW" = none ∧
    ((get_liquid_and_frozen_mass extW engDegraded).toOption.map
      (fun p => (lookupField p.1.radar "MW", p.2))) =
      some (some
        { data := { data := [17, 27, 37], mask := some [false, true, false] },
          units := "g m-3", long_name := "Liquid Water Mass",
          standard_name := "Liquid Water Mass", fillValue := some (-32768) },
        ([] : List String)) := by
  exact ⟨rfl, rfl, rfl⟩

/-- Claim C6 as amended: for every run in which the sounding file is
unparseable, the engine still completes the sounding stage in degraded
mode — `get_sounding` returns normally with the notice `Sounding read
fail`, temperature use disabled and the temperature grid left `None` —
but the liquid/ice mass stage is NOT skipped with a notice: in any state
with an undefined temperature grid it invokes the external mass
algorithm, passing `None` for the temperature, and commits the MW and MI
fields (through the masking propagation rule), emitting no notice. -/
theorem degraded_sounding_mass_stage_invoked (x : ExtLib) (e : Eng)
    (hsnd : e.snd = none) (e2 : Eng)
    (hT : e2.radar_T = none)
    (dzf : RField) (hdz : lookupField e2.radar e2.name_dz = some dzf)
    (drf : RField) (hdr : lookupField e2.radar e2.name_dr = some drf)
    (rz : List Int) (hrz : e2.radar_z = some rz)
    (km : List Bool) (hkm : dzf.data.mask = some km)
    (fv : Int) (hfv : dzf.fillValue = some fv)
    (hne : e2.name_dz ≠ "MW") :
    get_sounding x e (.file none) =
      .ok ({ e with
               T_flag := false,
               radar_z := some (x.get_z_from_radar e.radar),
               radar_T := none }, ["Sounding read fail"]) ∧
    ∃ e3, get_liquid_and_frozen_mass x e2 = .ok (e3, []) ∧
      lookupField e3.radar "MW" = some
        { data := { data := (x.calc_liquid_ice_mass dzf.data drf.data
            (rz.map (fun v => v / 1000)) none).1, mask := some km },
          units := "g m-3", long_name := "Liquid Water Mass",
          standard_name := "Liquid Water Mass", fillValue := some fv } ∧
      lookupField e3.radar "MI" = some
        { data := { data := (x.calc_liquid_ice_mass dzf.data drf.data
            (rz.map (fun v => v / 1000)) none).2, mask := some km },
          units := "g m-3", long_name := "Ice Water Mass",
          standard_name := "Ice Water Mass", fillValue := some fv } := by
  constructor
  · unfold get_sounding
    dsimp only
    unfold interpolate_sounding_to_radar
    dsimp only
    unfold check_sounding_for_montonic
    dsimp only
    rw [hsnd]
    rfl
  · have hdzd : getFieldData e2 e2.name_dz = .ok dzf.data := by
      unfold getFieldData; rw [hdz]
    have hdrd : getFieldData e2 e2.name_dr = .ok drf.data := by
      unfold getFieldData; rw [hdr]
    have hMW := add_field_eq_of_masked e2
      { data := (x.calc_liquid_ice_mass dzf.data drf.data
          (rz.map (fun v => v / 1000)) none).1, mask := none }
      "MW" "g m-3" "Liquid Water Mass" "Liquid Water Mass" dzf hdz km hkm
      fv hfv
    have hdz2 : lookupField (commitField e2 "MW"
        { data := { data := (x.calc_liquid_ice_mass dzf.data drf.data
            (rz.map (fun v => v / 1000)) none).1, mask := some km },
          units := "g m-3", long_name := "Liquid Water Mass",
          standard_name := "Liquid Water Mass",
          fillValue := some fv }).radar e2.name_dz = some dzf :=
      (lookupField_commitField_ne _ _ _ _ hne).trans hdz
    have hMI := add_field_eq_of_masked
      (commitField e2 "MW"
        { data := { data := (x.calc_liquid_ice_mass dzf.data drf.data
            (rz.map (fun v => v / 1000)) none).1, mask := some km },
          units := "g m-3", long_name := "Liquid Water Mass",
          standard_name := "Liquid Water Mass", fillValue := some fv })
      { data := (x.calc_liquid_ice_mass dzf.data drf.data
          (rz.map (fun v => v / 1000)) none).2, mask := none }
      "MI" "g m-3" "Ice Water Mass" "Ice Water Mass" dzf hdz2 km hkm fv hfv
    refine ⟨commitField
      (commitField e2 "MW"
        { data := { data := (x.calc_liquid_ice_mass dzf.data drf.data
            (rz.map (fun v => v / 1000)) none).1, mask := some km },
          units := "g m-3", long_name := "Liquid Water Mass",
          standard_name := "Liquid Water Mass", fillValue := some fv })
      "MI"
      { data := { data := (x.calc_liquid_ice_mass dzf.data drf.data
          (rz.map (fun v => v / 1000)) none).2, mask := some km },
        units := "g m-3", long_name := "Ice Water Mass",
        standard_name := "Ice Water Mass", fillValue := some fv },
      ?_, ?_, ?_⟩
    · unfold get_liquid_and_frozen_mass
      rw [hdzd]
      dsimp only
      rw [hdrd]
      dsimp only
      rw [hrz]
      dsimp only
      rw [hT]
      rw [hMW]
      dsimp only
      rw [hMI]
    · exact (lookupField_commitField_ne _ "MI" "MW" _ (by decide)).trans
        (lookupField_commitField_self _ "MW" _)
    · exact lookupField_commitField_self _ "MI" _

/-- Witness for C6 as amended, at a concrete degraded engine and concrete
external mass algorithm. -/
theorem degraded_sounding_mass_stage_invoked_witness :
    get_sounding extW engQC (.file none) =
      .ok ({ engQC with
               T_flag := false,
               radar_z := some [0, 150],
               radar_T := none }, ["Sounding read fail"]) ∧
    ∃ e3, get_liquid_and_frozen_mass extW engDegraded = .ok (e3, []) ∧
      lookupField e3.radar "MW" = some
        { data := { data := [17, 27, 37], mask := some [false, true, false] },
          units := "g m-3", long_name := "Liquid Water Mass",
          standard_name := "Liquid Water Mass",
          fillValue := some (-32768) } ∧
      lookupField e3.radar "MI" = some
        { data := { data := [19, 29, 39], mask := some [false, true, false] },
          units := "g m-3", long_name := "Ice Water Mass",
          standard_name := "Ice Water Mass",
          fillValue := some (-32768) } := by
  obtain ⟨h1, e3, h2, h3, h4⟩ := degraded_sounding_mass_stage_invoked extW
    engQC rfl engDegraded rfl
    { data := { data := [10, 20, 30], mask := some [false, true, false] },
      units := "dBZ", long_name := "Reflectivity",
      standard_name := "Reflectivity", fillValue := some (-32768) } rfl
    { data := { data := [1, 2, 3], mask := none },
      units := "dB", long_name := "Differential Reflectivity",
      standard_name := "Differential Reflectivity",
      fillValue := some (-32768) } rfl
    [1000, 2000, 3000] rfl [false, true, false] rfl (-32768) rfl (by decide)
  exact ⟨h1.trans (by rfl), e3, h2, h3.trans (by rfl), h4.trans (by rfl)⟩

/-- Claim C4 (refuted by evaluation): constructing the engine over a
volume that lacks the bound reflectivity field does NOT abort by
signaling an exception — no `MissingRequiredField` mechanism exists in
the source — and a partial engine IS produced: `__init__` emits the
warning `DZ field not in radar object, check variable names` via
`warnings.warn` and returns early, leaving the half-constructed object
behind. -/
theorem initEngine_missing_dz_partial_engine :
    (initEngine extW radarNoDz defaultKw).isRaised = false ∧
    (initEngine extW radarNoDz defaultKw).isHalted = true ∧
    initEngine extW radarNoDz defaultKw =
      .halted (engOf radarNoDz defaultKw)
        ["DZ field not in radar object, check variable names"] := by
  exact ⟨rfl, rfl, rfl⟩

theorem calculate_kdp_fails_without_path (x : ExtLib) (e : Eng)
    (hdp : e.name_dp = none ∨
      ∃ ndp, e.name_dp = some ndp ∧ hasField e.radar ndp = false) :
    calculate_kdp x e = .ok (false, e,
      ["Missing differential phase and KDP fields, failing ..."]) := by
  unfold calculate_kdp
  rcases hdp with hdpn | ⟨ndp, hdpe, habs⟩
  · rw [hdpn]
  · rw [hdpe]
    dsimp only
    rw [habs]
    rw [if_neg (by decide : ¬ (false = true))]

/-- Claim C4 as amended: when the bound reflectivity, differential
reflectivity or correlation-coefficient field is absent from the volume
(or no path to specific differential phase exists), construction neither
raises an exception nor completes: `do_name_check` emits a single warning
and `__init__` returns early, producing a partially initialized engine
whose volume is the untouched input. -/
theorem initEngine_missing_required_field_halts (x : ExtLib) (r : Radar)
    (kw : Kwargs)
    (h : hasField r kw.dz = false ∨ hasField r kw.dr = false ∨
         hasField r kw.rh = false ∨
         ((kw.kd = none ∨ ∃ nkd, kw.kd = some nkd ∧ hasField r nkd = false) ∧
          (kw.dp = none ∨ ∃ ndp, kw.dp = some ndp ∧
            hasField r ndp = false))) :
    ∃ e' w, initEngine x r kw = .halted e' [w] ∧ e'.radar = r := by
  unfold initEngine do_name_check
  dsimp only [engOf]
  by_cases hdz : hasField r kw.dz = true
  case neg =>
    rw [Bool.eq_false_iff.mpr hdz]
    rw [if_neg (by decide : ¬ (false = true))]
    exact ⟨_, _, rfl, rfl⟩
  rw [hdz]
  simp only [eq_self_iff_true, if_true]
  by_cases hdr : hasField r kw.dr = true
  case neg =>
    rw [Bool.eq_false_iff.mpr hdr]
    rw [if_neg (by decide : ¬ (false = true))]
    exact ⟨_, _, rfl, rfl⟩
  rw [hdr]
  simp only [eq_self_iff_true, if_true]
  by_cases hrh : hasField r kw.rh = true
  case neg =>
    rw [Bool.eq_false_iff.mpr hrh]
    rw [if_neg (by decide : ¬ (false = true))]
    exact ⟨_, _, rfl, rfl⟩
  rw [hrh]
  simp only [eq_self_iff_true, if_true]
  have hkdp : (kw.kd = none ∨
      ∃ nkd, kw.kd = some nkd ∧ hasField r nkd = false) ∧
      (kw.dp = none ∨ ∃ ndp, kw.dp = some ndp ∧ hasField r ndp = false) := by
    rcases h with h | h | h | h
    · exact absurd (hdz.symm.trans h) (by decide)
    · exact absurd (hdr.symm.trans h) (by decide)
    · exact absurd (hrh.symm.trans h) (by decide)
    · exact h
  obtain ⟨hkd, hdp⟩ := hkdp
  have hc : ∀ e1 : Eng, e1.name_dp = kw.dp → e1.radar = r →
      calculate_kdp x e1 = .ok (false, e1,
        ["Missing differential phase and KDP fields, failing ..."]) := by
    intro e1 h1 h2
    refine calculate_kdp_fails_without_path x e1 ?_
    rcases hdp with hdpn | ⟨ndp, hdpe, habs⟩
    · exact Or.inl (h1.trans hdpn)
    · exact Or.inr ⟨ndp, h1.trans hdpe, by rw [h2]; exact habs⟩
  cases hld : kw.ld with
  | none =>
    dsimp only
    rcases hkd with hkdn | ⟨nkd, hkdeq, hkdabs⟩
    · rw [hkdn]
      dsimp only
      rw [hc _ rfl rfl]
      exact ⟨_, _, rfl, rfl⟩
    · rw [hkdeq]
      dsimp only
      rw [hkdabs]
      rw [if_pos rfl]
      rw [hc _ rfl rfl]
      exact ⟨_, _, rfl, rfl⟩
  | some nld =>
    dsimp only
    by_cases hnld : hasField r nld = false
    · rw [if_pos hnld]
      rcases hkd with hkdn | ⟨nkd, hkdeq, hkdabs⟩
      · rw [hkdn]
        dsimp only
        rw [hc _ rfl rfl]
        exact ⟨_, _, rfl, rfl⟩
      · rw [hkdeq]
        dsimp only
        rw [hkdabs]
        rw [if_pos rfl]
        rw [hc _ rfl rfl]
        exact ⟨_, _, rfl, rfl⟩
    · rw [if_neg hnld]
      rcases hkd with hkdn | ⟨nkd, hkdeq, hkdabs⟩
      · rw [hkdn]
        dsimp only
        rw [hc _ rfl rfl]
        exact ⟨_, _, rfl, rfl⟩
      · rw [hkdeq]
        dsimp only
        rw [hkdabs]
        rw [if_pos rfl]
        rw [hc _ rfl rfl]
        exact ⟨_, _, rfl, rfl⟩

/-- Witness for C4 as amended: a volume missing the correlation
coefficient halts construction with the corresponding warning, leaving a
partial engine over the untouched volume. -/
theorem initEngine_missing_required_field_halts_witness :
    ∃ e' w, initEngine extW radarNoRh defaultKw = .halted e' [w] ∧
      e'.radar = radarNoRh :=
  initEngine_missing_required_field_halts extW radarNoRh defaultKw
    (Or.inr (Or.inr (Or.inl (by decide))))
